import Mathlib

set_option maxRecDepth 8000

/-!
# Verification of the pitch-analyzer backend pipeline

Shallow embedding of `backend/pitch_evaluator.py` (class `PitchEvaluator`).
JSON values returned by `json.loads` / consumed from HTTP responses are
modelled by `JValue`; Python numbers are modelled by `ℚ` (the code only
performs exact decimal arithmetic: fixed weights 0.35/0.50/0.15 and
`round(_, 2)`, which we model as round-half-to-even at two decimals, the
behaviour of Python's `round`).  Fallible code returns `Except PyError`;
the Python file only ever raises the generic `Exception` class (with a
message), which `PyError.generic` mirrors.
-/

/-! ## Definitions: the embedded program -/

inductive JValue where
  | null
  | bool (b : Bool)
  | num (q : ℚ)
  | str (s : String)
  | arr (elems : List JValue)
  | obj (fields : List (String × JValue))

def lookupField : List (String × JValue) → String → Option JValue
  | [], _ => none
  | (k, v) :: rest, key => if k = key then some v else lookupField rest key

def JValue.get (v : JValue) (key : String) : Option JValue :=
  match v with
  | .obj fields => lookupField fields key
  | _ => none

def asNumber : JValue → Option ℚ
  | .num q => some q
  | .bool b => some (if b then 1 else 0)
  | _ => none

inductive PyError where
  | generic (msg : String)
deriving DecidableEq, Repr

def roundHalfEven (q : ℚ) : ℤ :=
  if q - ⌊q⌋ < 1/2 then ⌊q⌋
  else if (1 : ℚ)/2 < q - ⌊q⌋ then ⌊q⌋ + 1
  else if ⌊q⌋ % 2 = 0 then ⌊q⌋ else ⌊q⌋ + 1

def pyRound2 (q : ℚ) : ℚ :=
  ((roundHalfEven (q * 100) : ℤ) : ℚ) / 100

def totalAmbitiousnessField : String := "total_ambitiousness_score"

def totalImplementationField : String := "total_implementation_score"

def totalDeliveryField : String := "total_delivery_score"

def getSectionTotal (ca : JValue) (sec total : String) : Option ℚ :=
  ((ca.get sec).bind (fun s => s.get total)).bind asNumber

def calculate_overall_score (ca : JValue) : Except PyError ℚ :=
  match getSectionTotal ca "ambitiousness" totalAmbitiousnessField,
        getSectionTotal ca "implementation" totalImplementationField,
        getSectionTotal ca "delivery" totalDeliveryField with
  | some a, some i, some d =>
      .ok (pyRound2 (a * 0.35 + i * 0.50 + d * 0.15))
  | _, _, _ => .error (.generic "Error calculating overall score")

def mkTotalOnlySection (secTotalField : String) (total : ℚ) : JValue :=
  .obj [(secTotalField, .num total)]

def mkAnalysis (a i d : ℚ) : JValue :=
  .obj [("ambitiousness", mkTotalOnlySection totalAmbitiousnessField a),
        ("implementation", mkTotalOnlySection totalImplementationField i),
        ("delivery", mkTotalOnlySection totalDeliveryField d)]

def validScoreLevels : List ℚ := [10, 8, 6, 4, 2]

def mismatchSection (secTotalField : String) : JValue :=
  .obj [("c1", .obj [("score", .num 2), ("feedback", .str "f")]),
        ("c2", .obj [("score", .num 2), ("feedback", .str "f")]),
        ("c3", .obj [("score", .num 2), ("feedback", .str "f")]),
        ("c4", .obj [("score", .num 2), ("feedback", .str "f")]),
        (secTotalField, .num 10)]

def mismatchAnalysis : JValue :=
  .obj [("ambitiousness", mismatchSection totalAmbitiousnessField),
        ("implementation", mismatchSection totalImplementationField),
        ("delivery", mismatchSection totalDeliveryField)]

def spec_category_scores (sec : JValue) : List ℚ :=
  match sec with
  | .obj fields => fields.filterMap (fun f => (f.2.get "score").bind asNumber)
  | _ => []

def spec_section_mean (sec : JValue) : Option ℚ :=
  match spec_category_scores sec with
  | [] => none
  | scores => some (scores.sum / scores.length)

def nameAmbitiousness : String := "ambitiousness"

def nameImplementation : String := "implementation"

def nameDelivery : String := "delivery"

def nameVision : String := "vision"

def nameMarketPotential : String := "market_potential"

def nameInnovation : String := "innovation"

def nameScalability : String := "scalability"

def nameTechnicalFeasibility : String := "technical_feasibility"

def nameBusinessModel : String := "business_model"

def nameGoToMarket : String := "go_to_market"

def nameTeamCapability : String := "team_capability"

def nameCommunicationEffectiveness : String := "communication_effectiveness"

def nameStorytelling : String := "storytelling"

def nameAuthenticExpertise : String := "authentic_expertise"

def nameEngagementQuality : String := "engagement_quality"

def nameScore : String := "score"

def nameFeedback : String := "feedback"

def promptPiece0 : String := "\n        Analyze this pitch transcript and provide "

def promptPiece1 : String := "s and "

def promptPiece2 : String := " in the following JSON format. \n        For each criterion, use these scoring levels:\n        - 10: Perfect/Exceptional\n        - 8: Great\n        - 6: Good\n        - 4: Not Great\n        - 2: Really Poor\n\n        \x7b\n            \""

def promptPiece3 : String := "\": \x7b\n                \""

def promptPiece4 : String := "\": \x7b\n                    \"score\": <10, 8, 6, 4, or 2>,\n                    \"feedback\": \"specific feedback explaining the score\"\n                \x7d,\n                \""

def promptPiece5 : String := "\": \x7b\n                    \"score\": <10, 8, 6, 4, or 2>,\n                    \"feedback\": \"specific feedback explaining the score\"\n                \x7d,\n                \""

def promptPiece6 : String := "\": \x7b\n                    \"score\": <10, 8, 6, 4, or 2>,\n                    \"feedback\": \"specific feedback explaining the score\"\n                \x7d,\n                \""

def promptPiece7 : String := "\": \x7b\n                    \"score\": <10, 8, 6, 4, or 2>,\n                    \"feedback\": \"specific feedback explaining the score\"\n                \x7d,\n                \""

def promptPiece8 : String := "\": <average of above scores>\n            \x7d,\n            \""

def promptPiece9 : String := "\": \x7b\n                \""

def promptPiece10 : String := "\": \x7b\n                    \"score\": <10, 8, 6, 4, or 2>,\n                    \"feedback\": \"specific feedback explaining the score\"\n                \x7d,\n                \""

def promptPiece11 : String := "\": \x7b\n                    \"score\": <10, 8, 6, 4, or 2>,\n                    \"feedback\": \"specific feedback explaining the score\"\n                \x7d,\n                \""

def promptPiece12 : String := "\": \x7b\n                    \"score\": <10, 8, 6, 4, or 2>,\n                    \"feedback\": \"specific feedback explaining the score\"\n                \x7d,\n                \""

def promptPiece13 : String := "\": \x7b\n                    \"score\": <10, 8, 6, 4, or 2>,\n                    \"feedback\": \"specific feedback explaining the score\"\n                \x7d,\n                \""

def promptPiece14 : String := "\": <average of above scores>\n            \x7d,\n            \""

def promptPiece15 : String := "\": \x7b\n                \""

def promptPiece16 : String := "\": \x7b\n                    \"score\": <10, 8, 6, 4, or 2>,\n                    \"feedback\": \"specific feedback explaining the score\"\n                \x7d,\n                \""

def promptPiece17 : String := "\": \x7b\n                    \"score\": <10, 8, 6, 4, or 2>,\n                    \"feedback\": \"specific feedback explaining the score\"\n                \x7d,\n                \""

def promptPiece18 : String := "\": \x7b\n                    \"score\": <10, 8, 6, 4, or 2>,\n                    \"feedback\": \"specific feedback explaining the score\"\n                \x7d,\n                \""

def promptPiece19 : String := "\": \x7b\n                    \"score\": <10, 8, 6, 4, or 2>,\n                    \"feedback\": \"specific feedback explaining the score\"\n                \x7d,\n                \""

def promptPiece20 : String := "\": <average of above scores>\n            \x7d\n        \x7d\n                \n        Rating Criteria:\n\n        AMBITIOUSNESS CRITERIA:\n        1. Potential Reach\n        - High: Global impact affecting millions\n        - Medium: Regional/national impact affecting thousands\n        - Low: Local impact affecting hundreds\n\n        2. Problem Severity\n        - High: Critical issues affecting health, safety, or major economic factors\n        - Medium: Significant quality of life or efficiency improvements\n        - Low: Non-critical improvements\n\n        3. Problem Difficulty\n        - High: Requires breakthrough innovation or solving complex challenges\n        - Medium: Moderate technical challenges with some innovation needed\n        - Low: Straightforward implementation using existing solutions\n\n        IMPLEMENTATION CRITERIA:\n        1. Market Competition\n        - High: Emerging or underserved market with minimal competition\n        - Medium: Moderate competition with room for new entrants\n        - Low: Saturated market with strong established players\n\n        2. Key Differentiator\n        - High: Unique, innovative, and hard to replicate solution\n        - Medium: Moderate differentiation with some unique aspects\n        - Low: Limited differentiation from existing solutions\n\n        3. Stage of Solution\n        - High: Mature solution with existing clients and revenue\n        - Medium: Prototype or MVP with some traction\n        - Low: Idea stage with no real-world validation\n\n        4. Financial Model\n        - High: Clear, sustainable model with strong profit potential\n        - Medium: Viable model needing refinement\n        - Low: Unclear or potentially unsustainable model\n\n        DELIVERY CRITERIA:\n        1. Communication_effectiveness\n        - High: Clear, concise, and effective communication\n        - Medium: Somewhat effective but with room for improvement\n        - Low: Unclear, disorganized, or difficult to follow\n\n        2. Storytelling\n        - High: Extremely clear, organized, and easy to understand\n        - Medium: Moderately clear with some room for improvement\n        - Low: Unclear, disorganized, or difficult to follow\n\n        3. Authentic_expertise\n        - High: Convincing, charismatic, and highly confident delivery\n        - Medium: Somewhat confident but may lack conviction\n        - Low: Hesitant, nervous, or lacking confidence\n\n        4. Engagement_quality\n        - High: Extremely clear, organized, and easy to understand\n        - Medium: Moderately clear with some room for improvement\n        - Low: Unclear, disorganized, or difficult to follow\n\n        Scoring Guidelines:\n        10 - Perfect: Exceptional, really high quality\n        8 - Really Good: Strong performance with minor room for improvement\n        6 - Good: Solid performance meeting expectations\n        4 - Not Great: Below expectations with noticeable issues in few areas\n        2 - Really Poor: Below expectations with major issues in several areas\n\n        Analyze this pitch transcript: "

def promptHead : String :=
  promptPiece0 ++ (nameScore ++ (promptPiece1 ++ (nameFeedback ++ (promptPiece2 ++ (nameAmbitiousness ++ (promptPiece3 ++ (nameVision ++ (promptPiece4 ++ (nameMarketPotential ++ (promptPiece5 ++ (nameInnovation ++ (promptPiece6 ++ (nameScalability ++ (promptPiece7 ++ (totalAmbitiousnessField ++ (promptPiece8 ++ (nameImplementation ++ (promptPiece9 ++ (nameTechnicalFeasibility ++ (promptPiece10 ++ (nameBusinessModel ++ (promptPiece11 ++ (nameGoToMarket ++ (promptPiece12 ++ (nameTeamCapability ++ (promptPiece13 ++ (totalImplementationField ++ (promptPiece14 ++ (nameDelivery ++ (promptPiece15 ++ (nameCommunicationEffectiveness ++ (promptPiece16 ++ (nameStorytelling ++ (promptPiece17 ++ (nameAuthenticExpertise ++ (promptPiece18 ++ (nameEngagementQuality ++ (promptPiece19 ++ (totalDeliveryField ++ (promptPiece20))))))))))))))))))))))))))))))))))))))))

def promptTail : String := "\n        "

def get_evaluation_prompt (transcript : String) : String :=
  promptHead ++ (transcript ++ promptTail)

def rubricFieldNames : List String :=
  [nameAmbitiousness, nameImplementation, nameDelivery,
   nameVision, nameMarketPotential, nameInnovation, nameScalability,
   nameTechnicalFeasibility, nameBusinessModel, nameGoToMarket,
   nameTeamCapability, nameCommunicationEffectiveness, nameStorytelling,
   nameAuthenticExpertise, nameEngagementQuality, nameScore, nameFeedback,
   totalAmbitiousnessField, totalImplementationField, totalDeliveryField]

def occursStr (sub s : String) : Prop := sub.data <:+: s.data

instance (sub s : String) : Decidable (occursStr sub s) := by
  unfold occursStr
  infer_instance

inductive LLMResponse where
  | parses (v : JValue)
  | malformed (raw : String) (parseErrDesc : String)
  | emptyContent
  | svcFailure (msg : String)

def LLMResponse.isParse : LLMResponse → Bool
  | .parses _ => true
  | _ => false

def errDesc : LLMResponse → String
  | .parses _ => ""
  | .malformed _ perr => perr
  | .emptyContent => "Empty response from OpenAI API"
  | .svcFailure m => m

def analysisFailMsg (maxRetries : Nat) (r : LLMResponse) : String :=
  "Error in transcript analysis after " ++ toString maxRetries
    ++ " attempts: " ++ errDesc r

inductive AnalyzeOutcome where
  | ok (v : JValue) (attempts : Nat)
  | failed (msg : String) (attempts : Nat)
  | returnedNone

def analyzeLoop (resp : Nat → LLMResponse) (maxRetries : Nat) :
    Nat → Nat → AnalyzeOutcome
  | _, 0 => .returnedNone
  | attempt, remaining + 1 =>
    match resp attempt with
    | .parses v => .ok v (attempt + 1)
    | r =>
      if remaining = 0 then .failed (analysisFailMsg maxRetries r) (attempt + 1)
      else analyzeLoop resp maxRetries (attempt + 1) remaining

def analyze_transcript (resp : Nat → LLMResponse) (maxRetries : Nat) :
    AnalyzeOutcome :=
  analyzeLoop resp maxRetries 0 maxRetries

def pyStrOf : JValue → String
  | .str s => s
  | .null => "None"
  | .bool b => if b then "True" else "False"
  | _ => "<payload>"

inductive PollOutcome where
  | ok (text : JValue) (polls : Nat)
  | err (msg : String) (polls : Nat)
  | stillPolling (polls : Nat)

def pollLoop : List JValue → Nat → PollOutcome
  | [], n => .stillPolling n
  | r :: rest, n =>
      match r.get "status" with
      | some (.str s) =>
          if s = "completed" then
            match r.get "text" with
            | some t => .ok t (n + 1)
            | none => .err "KeyError: text" (n + 1)
          else if s = "error" then
            match r.get "error" with
            | some e => .err ("Transcription error: " ++ pyStrOf e) (n + 1)
            | none => .err "KeyError: error" (n + 1)
          else pollLoop rest (n + 1)
      | some _ => pollLoop rest (n + 1)
      | none => .err "KeyError: status" (n + 1)

structure TranscriptionStubs where
  upload : Except String String
  submit : Except String String
  polls : List JValue

inductive TranscribeResult where
  | ok (text : JValue) (polls : Nat)
  | err (e : PyError) (polls : Nat)
  | stillPolling (polls : Nat)

def transcribe_audio (st : TranscriptionStubs) : TranscribeResult :=
  match st.upload with
  | .error m => .err (.generic ("Error in audio transcription: " ++ m)) 0
  | .ok _uploadUrl =>
    match st.submit with
    | .error m => .err (.generic ("Error in audio transcription: " ++ m)) 0
    | .ok _transcriptId =>
      match pollLoop st.polls 0 with
      | .ok t n => .ok t n
      | .err m n => .err (.generic ("Error in audio transcription: " ++ m)) n
      | .stillPolling n => .stillPolling n

def mkStatus (s : String) : JValue := .obj [("status", .str s)]

def mkCompleted (t : String) : JValue :=
  .obj [("status", .str "completed"), ("text", .str t)]

def mkErrorResp (m : String) : JValue :=
  .obj [("status", .str "error"), ("error", .str m)]

def inProgress (r : JValue) : Bool :=
  match r.get "status" with
  | some (.str s) => ¬ (s = "completed" ∨ s = "error")
  | _ => false

structure CallCounts where
  transcribeCalls : Nat
  analyzeCalls : Nat
  aggregateCalls : Nat
deriving DecidableEq, Repr

inductive PipeResult where
  | done (r : Except PyError JValue) (counts : CallCounts)
  | hung (counts : CallCounts)

structure PipelineStubs where
  transcription : TranscriptionStubs
  llm : String → Nat → LLMResponse

def finishAnalysis (t : String) (cv : JValue) : PipeResult :=
  match calculate_overall_score cv with
  | .error (.generic m) =>
      .done (.error (.generic ("Error in pitch evaluation: " ++ m))) ⟨1, 1, 1⟩
  | .ok score =>
    match cv.get "ambitiousness", cv.get "implementation", cv.get "delivery" with
    | some av, some iv, some dv =>
        .done (.ok (.obj [("transcript", .str t),
                          ("ambitiousness_evaluation", av),
                          ("implementation_evaluation", iv),
                          ("delivery_evaluation", dv),
                          ("overall_score", .num score)])) ⟨1, 1, 1⟩
    | _, _, _ =>
        .done (.error (.generic "Error in pitch evaluation: KeyError")) ⟨1, 1, 1⟩

def evaluate_pitch (st : PipelineStubs) : PipeResult :=
  match transcribe_audio st.transcription with
  | .stillPolling _ => .hung ⟨1, 0, 0⟩
  | .err (.generic m) _ =>
      .done (.error (.generic ("Error in pitch evaluation: " ++ m))) ⟨1, 0, 0⟩
  | .ok v _ =>
    match v with
    | .str t =>
      match analyze_transcript (st.llm (get_evaluation_prompt t)) 3 with
      | .ok cv _ => finishAnalysis t cv
      | .failed m _ =>
          .done (.error (.generic ("Error in pitch evaluation: " ++ m))) ⟨1, 1, 0⟩
      | .returnedNone => finishAnalysis t JValue.null
    | _ => .done (.error (.generic "Error in pitch evaluation: TypeError")) ⟨1, 0, 0⟩

def c6Stub : PipelineStubs :=
  ⟨⟨.error "Error uploading file: boom", .ok "id", []⟩,
   fun _ _ => .parses (mkAnalysis 8 6 10)⟩

def c8Stub : PipelineStubs :=
  ⟨⟨.ok "u", .ok "id", [mkCompleted "hi"]⟩,
   fun _ _ => .parses (mkAnalysis 8 6 10)⟩

def c8Result : JValue :=
  .obj [("transcript", .str "hi"),
        ("ambitiousness_evaluation", mkTotalOnlySection totalAmbitiousnessField 8),
        ("implementation_evaluation", mkTotalOnlySection totalImplementationField 6),
        ("delivery_evaluation", mkTotalOnlySection totalDeliveryField 10),
        ("overall_score", .num (pyRound2 (8 * 0.35 + 6 * 0.50 + 10 * 0.15)))]

def objKeys : JValue → List String
  | .obj fields => fields.map Prod.fst
  | _ => []

/-! ## Theorems -/

theorem floor_le_roundHalfEven (q : ℚ) : ⌊q⌋ ≤ roundHalfEven q := by
  unfold roundHalfEven
  split
  · exact le_refl _
  · split
    · omega
    · split <;> omega

theorem roundHalfEven_le_of_le {q : ℚ} {n : ℤ} (h : q ≤ n) :
    roundHalfEven q ≤ n := by
  have hfl : ⌊q⌋ ≤ n := by
    have := Int.floor_le_floor h
    simpa using this
  have key : ∀ hq : (1 : ℚ)/2 ≤ q - ⌊q⌋, ⌊q⌋ + 1 ≤ n := by
    intro hq
    rcases lt_or_eq_of_le hfl with hlt | heq
    · omega
    · exfalso
      have h1 : (n : ℚ) ≤ q := by
        rw [← heq]
        exact Int.floor_le q
      have h2 : q = (n : ℚ) := le_antisymm h h1
      rw [h2, ← heq] at hq
      simp at hq
      linarith
  unfold roundHalfEven
  split
  · exact hfl
  · split
    · next h2 => exact key (le_of_lt h2)
    · next h1 h2 =>
        have hq : (1 : ℚ)/2 ≤ q - ⌊q⌋ := le_of_not_lt h1
        split
        · exact hfl
        · exact key hq

theorem le_roundHalfEven_of_le {q : ℚ} {n : ℤ} (h : (n : ℚ) ≤ q) :
    n ≤ roundHalfEven q := by
  have : n ≤ ⌊q⌋ := Int.le_floor.mpr h
  exact le_trans this (floor_le_roundHalfEven q)

theorem pyRound2_nonneg {q : ℚ} (h : 0 ≤ q) : 0 ≤ pyRound2 q := by
  unfold pyRound2
  have h100 : (0 : ℚ) ≤ q * 100 := by positivity
  have := le_roundHalfEven_of_le (n := 0) (q := q * 100) (by exact_mod_cast h100)
  have hc : (0 : ℚ) ≤ ((roundHalfEven (q * 100) : ℤ) : ℚ) := by exact_mod_cast this
  positivity

theorem pyRound2_le_ten {q : ℚ} (h : q ≤ 10) : pyRound2 q ≤ 10 := by
  unfold pyRound2
  have h100 : q * 100 ≤ ((1000 : ℤ) : ℚ) := by push_cast; linarith
  have := roundHalfEven_le_of_le h100
  have hc : ((roundHalfEven (q * 100) : ℤ) : ℚ) ≤ 1000 := by exact_mod_cast this
  linarith

theorem c1_overall_score_weighted_sum :
    (∀ (ca : JValue) (a i d : ℚ),
        getSectionTotal ca "ambitiousness" totalAmbitiousnessField = some a →
        getSectionTotal ca "implementation" totalImplementationField = some i →
        getSectionTotal ca "delivery" totalDeliveryField = some d →
        calculate_overall_score ca = .ok (pyRound2 (a * 0.35 + i * 0.50 + d * 0.15))) ∧
    calculate_overall_score (mkAnalysis 8 6 10) = .ok 7.3 ∧
    calculate_overall_score (mkAnalysis 4 4 4) = .ok 4 := by
  refine ⟨fun ca a i d ha hi hd => ?_, ?_, ?_⟩
  · simp [calculate_overall_score, ha, hi, hd]
  · simp [calculate_overall_score, mkAnalysis, mkTotalOnlySection, getSectionTotal,
      JValue.get, lookupField, asNumber, totalAmbitiousnessField,
      totalImplementationField, totalDeliveryField, pyRound2, roundHalfEven]
    norm_num
  · simp [calculate_overall_score, mkAnalysis, mkTotalOnlySection, getSectionTotal,
      JValue.get, lookupField, asNumber, totalAmbitiousnessField,
      totalImplementationField, totalDeliveryField, pyRound2, roundHalfEven]
    norm_num

theorem c1_overall_score_weighted_sum_witness :
    calculate_overall_score (mkAnalysis 8 6 10) =
      .ok (pyRound2 (8 * 0.35 + 6 * 0.50 + 10 * 0.15)) :=
  c1_overall_score_weighted_sum.1 (mkAnalysis 8 6 10) 8 6 10
    (by decide) (by decide) (by decide)

theorem c2_counterexample_no_clamping :
    calculate_overall_score (mkAnalysis 20 20 20) = .ok 20 ∧
    ¬ ((20 : ℚ) ≤ 10) := by
  constructor
  · simp [calculate_overall_score, mkAnalysis, mkTotalOnlySection, getSectionTotal,
      JValue.get, lookupField, asNumber, totalAmbitiousnessField,
      totalImplementationField, totalDeliveryField, pyRound2, roundHalfEven]
    norm_num
  · norm_num

theorem c2_overall_in_range_for_valid_totals
    (ca : JValue) (a i d : ℚ)
    (ha : getSectionTotal ca "ambitiousness" totalAmbitiousnessField = some a)
    (hi : getSectionTotal ca "implementation" totalImplementationField = some i)
    (hd : getSectionTotal ca "delivery" totalDeliveryField = some d)
    (ha0 : 0 ≤ a) (ha10 : a ≤ 10) (hi0 : 0 ≤ i) (hi10 : i ≤ 10)
    (hd0 : 0 ≤ d) (hd10 : d ≤ 10) :
    ∃ r : ℚ, calculate_overall_score ca = .ok r ∧ 0 ≤ r ∧ r ≤ 10 := by
  refine ⟨pyRound2 (a * 0.35 + i * 0.50 + d * 0.15), ?_, ?_, ?_⟩
  · simp [calculate_overall_score, ha, hi, hd]
  · apply pyRound2_nonneg
    norm_num
    linarith
  · apply pyRound2_le_ten
    norm_num
    linarith

theorem c2_overall_in_range_witness :
    ∃ r : ℚ, calculate_overall_score (mkAnalysis 8 6 10) = .ok r ∧ 0 ≤ r ∧ r ≤ 10 :=
  c2_overall_in_range_for_valid_totals (mkAnalysis 8 6 10) 8 6 10
    (by decide) (by decide) (by decide)
    (by norm_num) (by norm_num) (by norm_num) (by norm_num) (by norm_num) (by norm_num)

theorem c3_counterexample_total_is_not_mean :
    (∀ s ∈ spec_category_scores (mismatchSection totalAmbitiousnessField),
        s ∈ validScoreLevels) ∧
    spec_section_mean (mismatchSection totalAmbitiousnessField) = some 2 ∧
    getSectionTotal mismatchAnalysis "ambitiousness" totalAmbitiousnessField = some 10 ∧
    calculate_overall_score mismatchAnalysis = .ok 10 ∧
    (10 : ℚ) ≠ 2 := by
  refine ⟨by decide, ?_, by decide, ?_, by norm_num⟩
  · simp [spec_section_mean, spec_category_scores, mismatchSection, JValue.get,
      lookupField, asNumber, totalAmbitiousnessField]
    norm_num
  · simp [calculate_overall_score, mismatchAnalysis, mismatchSection, getSectionTotal,
      JValue.get, lookupField, asNumber, totalAmbitiousnessField,
      totalImplementationField, totalDeliveryField, pyRound2, roundHalfEven]
    norm_num

theorem c3_aggregator_trusts_supplied_totals
    (ca ca' : JValue)
    (ha : getSectionTotal ca "ambitiousness" totalAmbitiousnessField =
          getSectionTotal ca' "ambitiousness" totalAmbitiousnessField)
    (hi : getSectionTotal ca "implementation" totalImplementationField =
          getSectionTotal ca' "implementation" totalImplementationField)
    (hd : getSectionTotal ca "delivery" totalDeliveryField =
          getSectionTotal ca' "delivery" totalDeliveryField) :
    calculate_overall_score ca = calculate_overall_score ca' := by
  unfold calculate_overall_score
  rw [ha, hi, hd]

theorem c3_aggregator_trusts_supplied_totals_witness :
    calculate_overall_score mismatchAnalysis =
      calculate_overall_score (mkAnalysis 10 10 10) :=
  c3_aggregator_trusts_supplied_totals mismatchAnalysis (mkAnalysis 10 10 10)
    (by decide) (by decide) (by decide)

theorem c9_counterexample_generic_error :
    calculate_overall_score (JValue.obj []) =
      .error (PyError.generic "Error calculating overall score") := by
  simp [calculate_overall_score, getSectionTotal, JValue.get, lookupField]

theorem c9_fails_iff_total_missing_or_nonnumeric (ca : JValue) :
    calculate_overall_score ca =
        .error (PyError.generic "Error calculating overall score") ↔
      (getSectionTotal ca "ambitiousness" totalAmbitiousnessField = none ∨
       getSectionTotal ca "implementation" totalImplementationField = none ∨
       getSectionTotal ca "delivery" totalDeliveryField = none) := by
  unfold calculate_overall_score
  rcases h1 : getSectionTotal ca "ambitiousness" totalAmbitiousnessField with _ | a <;>
    rcases h2 : getSectionTotal ca "implementation" totalImplementationField with _ | i <;>
      rcases h3 : getSectionTotal ca "delivery" totalDeliveryField with _ | d <;>
        simp

theorem occursStr_self (s : String) : occursStr s s := List.infix_refl _

theorem occursStr_left {sub a : String} (b : String) (h : occursStr sub a) :
    occursStr sub (a ++ b) := by
  unfold occursStr at h ⊢
  rw [String.data_append]
  exact h.trans (List.prefix_append _ _).isInfix

theorem occursStr_right (a : String) {sub b : String} (h : occursStr sub b) :
    occursStr sub (a ++ b) := by
  unfold occursStr at h ⊢
  rw [String.data_append]
  exact h.trans (List.suffix_append _ _).isInfix

theorem c7_prompt_builder :
    (∀ t : String, get_evaluation_prompt t = promptHead ++ (t ++ promptTail)) ∧
    (∀ t : String, occursStr t (get_evaluation_prompt t)) ∧
    (∀ (t name : String), name ∈ rubricFieldNames →
      occursStr name (get_evaluation_prompt t)) := by
  refine ⟨fun t => rfl, fun t => ?_, fun t name h => ?_⟩
  · exact occursStr_right _ (occursStr_left _ (occursStr_self t))
  · show occursStr name (promptHead ++ (t ++ promptTail))
    fin_cases h <;>
      (apply occursStr_left
       unfold promptHead
       repeat (first
         | exact occursStr_left _ (occursStr_self _)
         | apply occursStr_right))

theorem c7_prompt_builder_witness :
    occursStr "my pitch" (get_evaluation_prompt "my pitch") ∧
    occursStr totalAmbitiousnessField (get_evaluation_prompt "my pitch") :=
  ⟨c7_prompt_builder.2.1 "my pitch",
   c7_prompt_builder.2.2 "my pitch" totalAmbitiousnessField (by decide)⟩

theorem analyzeLoop_parses {resp : Nat → LLMResponse} {maxRetries : Nat}
    {attempt remaining : Nat} {v : JValue} (h : resp attempt = .parses v)
    (hr : 0 < remaining) :
    analyzeLoop resp maxRetries attempt remaining = .ok v (attempt + 1) := by
  match remaining, hr with
  | remaining + 1, _ =>
    unfold analyzeLoop
    rw [h]

theorem analyzeLoop_all_fail {resp : Nat → LLMResponse} {maxRetries : Nat} :
    ∀ (remaining attempt : Nat), 0 < remaining →
    (∀ k, attempt ≤ k → k < attempt + remaining → (resp k).isParse = false) →
    analyzeLoop resp maxRetries attempt remaining =
      .failed (analysisFailMsg maxRetries (resp (attempt + remaining - 1)))
        (attempt + remaining) := by
  intro remaining
  induction remaining with
  | zero => omega
  | succ n ih =>
    intro attempt _ hfail
    have h0 : (resp attempt).isParse = false := hfail attempt le_rfl (by omega)
    unfold analyzeLoop
    cases hr : resp attempt with
    | parses v => rw [hr] at h0; simp [LLMResponse.isParse] at h0
    | malformed raw perr =>
        by_cases hn : n = 0
        · subst hn
          simp [← hr]
        · simp only [hn, if_false]
          have harg : attempt + 1 + n = attempt + (n + 1) := by omega
          have := ih (attempt + 1) (by omega)
            (fun k hk1 hk2 => hfail k (by omega) (by omega))
          rw [this, harg]
    | emptyContent =>
        by_cases hn : n = 0
        · subst hn
          simp [← hr]
        · simp only [hn, if_false]
          have harg : attempt + 1 + n = attempt + (n + 1) := by omega
          have := ih (attempt + 1) (by omega)
            (fun k hk1 hk2 => hfail k (by omega) (by omega))
          rw [this, harg]
    | svcFailure m =>
        by_cases hn : n = 0
        · subst hn
          simp [← hr]
        · simp only [hn, if_false]
          have harg : attempt + 1 + n = attempt + (n + 1) := by omega
          have := ih (attempt + 1) (by omega)
            (fun k hk1 hk2 => hfail k (by omega) (by omega))
          rw [this, harg]

theorem c4_counterexample_payload_not_in_error :
    analyze_transcript
        (fun _ => .malformed "this is not json"
          "Expecting value: line 1 column 1 (char 0)") 3 =
      .failed ("Error in transcript analysis after 3 attempts: Expecting value: line 1 column 1 (char 0)") 3 ∧
    ¬ occursStr "this is not json"
        "Error in transcript analysis after 3 attempts: Expecting value: line 1 column 1 (char 0)" := by
  constructor
  · rfl
  · decide

theorem c4_retry_until_exhaustion_or_first_parse :
    (∀ (resp : Nat → LLMResponse) (maxRetries : Nat), 0 < maxRetries →
      (∀ k, k < maxRetries → (resp k).isParse = false) →
      analyze_transcript resp maxRetries =
        .failed (analysisFailMsg maxRetries (resp (maxRetries - 1))) maxRetries) ∧
    (∀ (resp : Nat → LLMResponse) (maxRetries : Nat) (v : JValue),
      0 < maxRetries → resp 0 = .parses v →
      analyze_transcript resp maxRetries = .ok v 1) := by
  constructor
  · intro resp maxRetries hpos hfail
    unfold analyze_transcript
    have := @analyzeLoop_all_fail resp maxRetries
      maxRetries 0 hpos (fun k _ hk => hfail k (by omega))
    simpa using this
  · intro resp maxRetries v hpos h0
    exact analyzeLoop_parses h0 hpos

theorem c4_retry_until_exhaustion_or_first_parse_witness :
    analyze_transcript (fun _ => .malformed "x" "Expecting value") 3 =
      .failed (analysisFailMsg 3 ((fun _ => LLMResponse.malformed "x" "Expecting value") 2)) 3 ∧
    analyze_transcript (fun _ => .parses (JValue.str "ok")) 3 =
      .ok (JValue.str "ok") 1 :=
  ⟨c4_retry_until_exhaustion_or_first_parse.1
      (fun _ => .malformed "x" "Expecting value") 3 (by decide) (by decide),
   c4_retry_until_exhaustion_or_first_parse.2
      (fun _ => .parses (JValue.str "ok")) 3 (JValue.str "ok") (by decide) rfl⟩

theorem c10_zero_retries_returns_none :
    ∀ resp : Nat → LLMResponse,
      analyze_transcript resp 0 = .returnedNone ∧
      (∀ v n, analyze_transcript resp 0 ≠ .ok v n) ∧
      (∀ m n, analyze_transcript resp 0 ≠ .failed m n) := by
  intro resp
  refine ⟨rfl, ?_, ?_⟩
  · intro v n h
    exact AnalyzeOutcome.noConfusion h
  · intro m n h
    exact AnalyzeOutcome.noConfusion h

theorem pollLoop_skips {pre : List JValue} (hpre : ∀ r ∈ pre, inProgress r = true) :
    ∀ (rest : List JValue) (n : Nat),
      pollLoop (pre ++ rest) n = pollLoop rest (n + pre.length) := by
  induction pre with
  | nil => intro rest n; simp
  | cons r pre ih =>
    intro rest n
    have hr : inProgress r = true := hpre r (List.mem_cons_self r pre)
    have hpre' : ∀ x ∈ pre, inProgress x = true :=
      fun x hx => hpre x (List.mem_cons_of_mem r hx)
    unfold inProgress at hr
    calc pollLoop ((r :: pre) ++ rest) n
        = pollLoop (pre ++ rest) (n + 1) := by
          rw [List.cons_append]
          rcases hst : r.get "status" with _ | v
          · rw [hst] at hr; simp at hr
          · cases v with
            | str s =>
              rw [hst] at hr
              simp only [decide_eq_true_eq] at hr
              have hs1 : ¬ s = "completed" := fun h => hr (Or.inl h)
              have hs2 : ¬ s = "error" := fun h => hr (Or.inr h)
              unfold pollLoop
              rw [hst]
              simp only [hs1, hs2, if_false]
              exact pollLoop.eq_def _ _
            | null => rw [hst] at hr; simp at hr
            | bool b => rw [hst] at hr; simp at hr
            | num q => rw [hst] at hr; simp at hr
            | arr elems => rw [hst] at hr; simp at hr
            | obj fields => rw [hst] at hr; simp at hr
      _ = pollLoop rest (n + 1 + pre.length) := ih hpre' rest (n + 1)
      _ = pollLoop rest (n + (r :: pre).length) := by
          congr 1
          simp only [List.length_cons]
          omega

theorem c5_polling_until_terminal_status
    (url tid : String) (pre rest : List JValue) (t m : String)
    (hpre : ∀ r ∈ pre, inProgress r = true) :
    transcribe_audio ⟨.ok url, .ok tid, pre ++ mkCompleted t :: rest⟩ =
      .ok (.str t) (pre.length + 1) ∧
    transcribe_audio ⟨.ok url, .ok tid, pre ++ mkErrorResp m :: rest⟩ =
      .err (.generic ("Error in audio transcription: Transcription error: " ++ m))
        (pre.length + 1) ∧
    (∀ (v : JValue) (k : Nat),
      transcribe_audio ⟨.ok url, .ok tid, pre ++ mkErrorResp m :: rest⟩ ≠ .ok v k) := by
  have hc : pollLoop (pre ++ mkCompleted t :: rest) 0 =
      .ok (.str t) (pre.length + 1) := by
    rw [pollLoop_skips hpre]
    unfold pollLoop
    simp [mkCompleted, JValue.get, lookupField]
  have he : pollLoop (pre ++ mkErrorResp m :: rest) 0 =
      .err ("Transcription error: " ++ m) (pre.length + 1) := by
    rw [pollLoop_skips hpre]
    unfold pollLoop
    simp [mkErrorResp, JValue.get, lookupField, pyStrOf]
  refine ⟨?_, ?_, ?_⟩
  · simp only [transcribe_audio, hc]
  · simp only [transcribe_audio, he]
    have hlit : ("Error in audio transcription: " : String) ++ "Transcription error: " =
        "Error in audio transcription: Transcription error: " := rfl
    rw [← hlit, String.append_assoc]
  · intro v k h
    simp only [transcribe_audio, he] at h
    exact TranscribeResult.noConfusion h

theorem c5_polling_until_terminal_status_witness :
    transcribe_audio ⟨.ok "u", .ok "id",
        [mkStatus "queued", mkStatus "processing", mkCompleted "hello world"]⟩ =
      .ok (.str "hello world") 3 ∧
    transcribe_audio ⟨.ok "u", .ok "id",
        [mkStatus "queued", mkStatus "processing", mkErrorResp "boom"]⟩ =
      .err (.generic ("Error in audio transcription: Transcription error: " ++ "boom")) 3 ∧
    (∀ (v : JValue) (k : Nat),
      transcribe_audio ⟨.ok "u", .ok "id",
        [mkStatus "queued", mkStatus "processing", mkErrorResp "boom"]⟩ ≠ .ok v k) :=
  c5_polling_until_terminal_status "u" "id"
    [mkStatus "queued", mkStatus "processing"] [] "hello world" "boom"
    (by decide)

theorem c6_transcription_failure_short_circuits
    (st : PipelineStubs) (c : String) (n : Nat)
    (ht : transcribe_audio st.transcription =
      .err (.generic ("Error in audio transcription: " ++ c)) n) :
    evaluate_pitch st =
      .done (.error (.generic
        ("Error in pitch evaluation: " ++ ("Error in audio transcription: " ++ c))))
        ⟨1, 0, 0⟩ ∧
    (∀ (res : JValue) (cnts : CallCounts),
      evaluate_pitch st ≠ .done (.ok res) cnts) := by
  have h1 : evaluate_pitch st =
      .done (.error (.generic
        ("Error in pitch evaluation: " ++ ("Error in audio transcription: " ++ c))))
        ⟨1, 0, 0⟩ := by
    simp only [evaluate_pitch, ht]
  refine ⟨h1, fun res cnts h => ?_⟩
  rw [h1] at h
  simp at h

theorem c6_transcription_failure_short_circuits_witness :
    evaluate_pitch c6Stub =
      .done (.error (.generic
        ("Error in pitch evaluation: " ++
          ("Error in audio transcription: " ++ "Error uploading file: boom"))))
        ⟨1, 0, 0⟩ ∧
    (∀ (res : JValue) (cnts : CallCounts),
      evaluate_pitch c6Stub ≠ .done (.ok res) cnts) :=
  c6_transcription_failure_short_circuits c6Stub "Error uploading file: boom" 0 rfl

theorem c8_result_object_fields
    (st : PipelineStubs) (t : String) (n : Nat) (cv av iv dv : JValue) (score : ℚ)
    (ht : transcribe_audio st.transcription = .ok (.str t) n)
    (hllm : st.llm (get_evaluation_prompt t) 0 = .parses cv)
    (hs : calculate_overall_score cv = .ok score)
    (ha : cv.get "ambitiousness" = some av)
    (hi : cv.get "implementation" = some iv)
    (hd : cv.get "delivery" = some dv) :
    evaluate_pitch st =
      .done (.ok (.obj [("transcript", .str t),
                        ("ambitiousness_evaluation", av),
                        ("implementation_evaluation", iv),
                        ("delivery_evaluation", dv),
                        ("overall_score", .num score)])) ⟨1, 1, 1⟩ := by
  have hana : analyze_transcript (st.llm (get_evaluation_prompt t)) 3 = .ok cv 1 := by
    have := @analyzeLoop_parses (st.llm (get_evaluation_prompt t)) 3 0 3 cv hllm (by omega)
    simpa [analyze_transcript] using this
  simp only [evaluate_pitch, ht, hana, finishAnalysis, hs, ha, hi, hd]

theorem c8_result_object_fields_witness :
    evaluate_pitch c8Stub = .done (.ok c8Result) ⟨1, 1, 1⟩ :=
  c8_result_object_fields c8Stub "hi" 1 (mkAnalysis 8 6 10)
    (mkTotalOnlySection totalAmbitiousnessField 8)
    (mkTotalOnlySection totalImplementationField 6)
    (mkTotalOnlySection totalDeliveryField 10)
    (pyRound2 (8 * 0.35 + 6 * 0.50 + 10 * 0.15))
    rfl rfl rfl rfl rfl rfl

theorem c8_counterexample_field_names :
    evaluate_pitch c8Stub = .done (.ok c8Result) ⟨1, 1, 1⟩ ∧
    objKeys c8Result = ["transcript", "ambitiousness_evaluation",
      "implementation_evaluation", "delivery_evaluation", "overall_score"] ∧
    ¬ "ambitiousness" ∈ objKeys c8Result ∧
    ¬ "implementation" ∈ objKeys c8Result ∧
    ¬ "delivery" ∈ objKeys c8Result := by
  refine ⟨rfl, by decide, by decide, by decide, by decide⟩
